import Mathlib

/-!
Verification of the knowledge-base retrieval engine and calculator tools of a
retrieval-augmented support assistant backend.

The Python sources are shallowly embedded:

* `tools/knowledge_base.py` — the `KnowledgeBase` class becomes the record
  `KBState` plus explicit state-passing functions (`add_document`, `search`,
  `_ensure_initialized`, `_load_or_create_index`, `save`); the OpenAI
  embedding client is an oracle `Embedder` returning `Except`.
* `tools/code_interpreter.py` — `calculate`, `calculate_compound_interest`
  and `analyze_investment_returns` become pure string-valued functions; the
  Python float power `x ** y` and `eval` are oracles, since their exact
  values never decide a claim here.
* Python floats are modelled as exact rationals (`ℚ`); every claim below is
  insensitive to rounding.  Exceptions are modelled as `Option Err`/`Except`
  results threaded together with the state, so a raise that leaves partial
  mutations behind would be visible in the returned state.
* The faiss index (`IndexFlatL2`) and the JSON (de)serialisation are library
  code not present in the repository; those pieces are modelled from the
  spec (each such definition says so in its doc comment).
-/

namespace FinanceKB

/-- An embedding vector: a sequence of float coordinates (floats modelled as
exact rationals). -/
abbrev Vec := List ℚ

/-- A document record as stored in `KnowledgeBase.documents`:
`{"title": ..., "content": ..., "full_text": ...}`. -/
structure Document where
  title : String
  content : String
  full_text : String
deriving DecidableEq, Repr

/-- The Python exceptions that can cross the knowledge-base boundary. -/
inductive Err where
  /-- an error raised by the OpenAI embeddings client -/
  | provider : String → Err
  /-- `AttributeError`: method call on `self.index` while it is `None` -/
  | attributeError : Err
  /-- faiss `add` assertion failure: vector length differs from `index.d` -/
  | dimensionMismatch : Err
  /-- `faiss.read_index` / `json.load` failure on a malformed artifact -/
  | readError : Err
deriving DecidableEq, Repr

/-- The mutable state of the `KnowledgeBase` instance: `self.index` (None
until `_load_or_create_index` ran), `self.documents`, `self.dimension`,
`self._initialized`. -/
structure KBState where
  index : Option (List Vec)
  documents : List Document
  dimension : ℕ
  initialized : Bool
deriving DecidableEq, Repr

/-- `self.index.ntotal if self.index else 0` (as read by the stats route). -/
def indexCount (kb : KBState) : ℕ :=
  (kb.index.map List.length).getD 0

/-- The state built by `KnowledgeBase.__init__`. -/
def initialKB : KBState :=
  { index := none, documents := [], dimension := 1536, initialized := false }

/-- The embedding provider (`client.embeddings.create`), as a deterministic
oracle that may fail. -/
abbrev Embedder := String → Except Err Vec

/-- `KnowledgeBase.add_document(title, content)`: build
`text = f"{title}\n{content}"`, request an embedding (a failure propagates
with the state untouched), `self.index.add` (faiss first asserts the
dimension), then `self.documents.append`.  The pair returned is
(raised exception if any, the state as the method leaves it). -/
def add_document (embed : Embedder) (kb : KBState) (title content : String) :
    Option Err × KBState :=
  match kb.index with
  | none => (some Err.attributeError, kb)
  | some xs =>
    match embed (title ++ "\n" ++ content) with
    | Except.error e => (some e, kb)
    | Except.ok v =>
      if v.length = kb.dimension then
        (none,
          { kb with
            index := some (xs ++ [v]),
            documents := kb.documents ++
              [{ title := title, content := content,
                 full_text := title ++ "\n" ++ content }] })
      else (some Err.dimensionMismatch, kb)

/-- The pairing invariant: the index holds exactly one vector per stored
document, and the vector at position `i` is the embedding of the full text
of the document at position `i`. -/
def Paired (embed : Embedder) (kb : KBState) : Prop :=
  ∃ xs, kb.index = some xs ∧ xs.length = kb.documents.length ∧
    ∀ i : ℕ, ∀ hd : i < kb.documents.length, ∀ hx : i < xs.length,
      embed kb.documents[i].full_text = Except.ok xs[i]

/-- A sequence of `add_document` calls, stopping at the first raised
exception (as a Python caller loop would). -/
def addSeq (embed : Embedder) (kb : KBState) :
    List (String × String) → Option Err × KBState
  | [] => (none, kb)
  | (t, c) :: rest =>
    match add_document embed kb t c with
    | (none, kb2) => addSeq embed kb2 rest
    | (some e, kb2) => (some e, kb2)

/-- Modelled from the spec: the durable byte representation of the faiss
flat index (`faiss.write_index` / `faiss.read_index` are library code).  Per
spec §4.1 it preserves the dimension, the vector count and the exact vector
values in insertion order; a flat index stores its vectors as one contiguous
array. -/
structure IndexBlob where
  dim : ℕ
  ntotal : ℕ
  data : List ℚ
deriving DecidableEq, Repr

/-- Split a flat coordinate array back into `n` vectors of `d` floats. -/
def chunkVecs (d : ℕ) : ℕ → List ℚ → List Vec
  | 0, _ => []
  | n + 1, l => l.take d :: chunkVecs d n (l.drop d)

/-- Modelled from the spec: `faiss.write_index` serialises the index. -/
def write_index (dim : ℕ) (xs : List Vec) : IndexBlob :=
  { dim := dim, ntotal := xs.length, data := xs.flatten }

/-- Modelled from the spec: `faiss.read_index` restores an index from a
blob, failing on a malformed one. -/
def read_index (b : IndexBlob) : Option (List Vec) :=
  if 0 < b.dim ∧ b.data.length = b.dim * b.ntotal then
    some (chunkVecs b.dim b.ntotal b.data)
  else none

/-- Modelled from the spec: a JSON value as far as the documents file needs
(strings, arrays, objects with ordered keys). -/
inductive JValue where
  | str : String → JValue
  | arr : List JValue → JValue
  | obj : List (String × JValue) → JValue

/-- The JSON object `json.dump` writes for one document record (Python dicts
keep insertion order). -/
def docToJson (d : Document) : JValue :=
  JValue.obj [("title", JValue.str d.title), ("content", JValue.str d.content),
    ("full_text", JValue.str d.full_text)]

/-- The JSON array `json.dump(self.documents, f)` writes. -/
def docsToJson (docs : List Document) : JValue :=
  JValue.arr (docs.map docToJson)

/-- Modelled from the spec: reading one document record back from JSON
(`fromJson` of the document store round-trips the array of
`{title, content, full_text}` objects, order preserved). -/
def jsonToDoc : JValue → Option Document
  | JValue.obj [("title", JValue.str t), ("content", JValue.str c),
      ("full_text", JValue.str f)] =>
    some { title := t, content := c, full_text := f }
  | _ => none

def jsonToDocList : List JValue → Option (List Document)
  | [] => some []
  | j :: rest =>
    match jsonToDoc j, jsonToDocList rest with
    | some d, some ds => some (d :: ds)
    | _, _ => none

/-- Modelled from the spec: `json.load` of the documents file. -/
def jsonToDocs : JValue → Option (List Document)
  | JValue.arr l => jsonToDocList l
  | _ => none

/-- The two persisted artifacts at `FAISS_INDEX_PATH` / `DOCUMENTS_PATH`.
The source checks for both files with one conjunction, and the claims never
exercise exactly one file existing, so durable storage is one optional
pair. -/
structure Artifacts where
  blob : IndexBlob
  docsFile : JValue

/-- What `KnowledgeBase.save` writes for a given state. -/
def saveArtifacts (dim : ℕ) (xs : List Vec) (docs : List Document) :
    Artifacts :=
  { blob := write_index dim xs, docsFile := docsToJson docs }

/-- A fresh load of the two artifacts (`faiss.read_index`, then
`json.load`), as used when initialization finds persisted files. -/
def loadArtifacts (a : Artifacts) : Option (List Vec × List Document) :=
  match read_index a.blob, jsonToDocs a.docsFile with
  | some xs, some ds => some (xs, ds)
  | _, _ => none

/-- The process state the knowledge base touches: the singleton
`KnowledgeBase` instance plus durable storage. -/
structure World where
  kb : KBState
  storage : Option Artifacts

/-- `KnowledgeBase.save()`: `faiss.write_index(self.index, ...)` (a `None`
index cannot be serialised), then `json.dump(self.documents, f)`. -/
def saveOp (kb : KBState) (storage : Option Artifacts) :
    Option Err × Option Artifacts :=
  match kb.index with
  | none => (some Err.attributeError, storage)
  | some xs => (none, some (saveArtifacts kb.dimension xs kb.documents))

/-- The fixed seed list of `_initialize_sample_data` (titles and contents as
in the source). -/
def sample_docs : List (String × String) :=
  [("Account Withdrawal Procedure",
    "To withdraw funds from your investment account: 1) Log in to your account, 2) Navigate to 'Withdraw Funds', 3) Select the account and amount, 4) Choose your bank account, 5) Confirm the transaction. Withdrawals are processed within 2-3 business days. Minimum withdrawal is $100."),
   ("Savings Account Interest Rates",
    "Our high-yield savings account currently offers 4.5% APY (Annual Percentage Yield) on all balances. Interest is compounded daily and paid monthly. There are no minimum balance requirements and no monthly maintenance fees."),
   ("Investment Account Types",
    "We offer three main investment account types: 1) Individual Brokerage Account - for general investing with flexible withdrawals, 2) Traditional IRA - tax-deferred retirement account, 3) Roth IRA - after-tax retirement account with tax-free growth. Each has different contribution limits and tax implications."),
   ("Account Security and Two-Factor Authentication",
    "Protect your account with two-factor authentication (2FA). Enable it in Settings > Security. We support SMS codes, authenticator apps (Google Authenticator, Authy), and biometric authentication. 2FA adds an extra layer of security beyond your password."),
   ("Trading Fees and Commission Structure",
    "Stock and ETF trades are commission-free. Options trades are $0.65 per contract. Mutual fund trades may have fees depending on the fund. Cryptocurrency trading has a spread of 0.5-2% depending on market conditions. There are no account maintenance or inactivity fees."),
   ("Account Funding Methods",
    "Fund your account via: 1) ACH bank transfer (free, 3-5 business days), 2) Wire transfer ($25 fee, same day), 3) Check deposit (mobile check deposit available, 5-7 days), 4) Account transfer from another brokerage (ACATS transfer, 5-10 days). Minimum initial deposit is $500."),
   ("Tax Documents and Reporting",
    "Tax documents (1099 forms) are available by February 15th each year. Access them in Account > Tax Documents. We report all taxable events to the IRS including dividends, interest, and capital gains. You can download CSV files of all transactions for your records."),
   ("Customer Support Hours and Contact",
    "Customer support is available Monday-Friday 8am-8pm ET, Saturday 9am-5pm ET. Contact us via: phone (1-800-555-0123), email (support@fintechco.com), live chat (on website), or this AI assistant 24/7. For urgent account security issues, call our 24/7 security line at 1-800-555-9999."),
   ("Dividend Reinvestment Program (DRIP)",
    "Automatically reinvest dividends to purchase additional shares at no cost. Enable DRIP in your account settings for individual securities or all holdings. Fractional shares are supported. You can disable DRIP anytime to receive cash dividends instead."),
   ("Account Closure Process",
    "To close your account: 1) Sell or transfer all positions, 2) Withdraw remaining cash balance, 3) Submit closure request via Secure Message Center or call support, 4) Confirm closure. No fees for account closure. Reopening requires a new application.")]

/-- `KnowledgeBase._load_or_create_index`: when both persisted files exist,
`faiss.read_index` then `json.load` (note: the loaded lengths are NOT
compared); otherwise create an empty `IndexFlatL2(self.dimension)`, seed the
sample documents through `add_document`, and `save()`. -/
def load_or_create_index (embed : Embedder) (w : World) : Option Err × World :=
  match w.storage with
  | some a =>
    match read_index a.blob with
    | none => (some Err.readError, w)
    | some xs =>
      match jsonToDocs a.docsFile with
      | none => (some Err.readError,
          { w with kb := { w.kb with index := some xs } })
      | some ds => (none,
          { w with kb := { w.kb with index := some xs, documents := ds } })
  | none =>
    let kb1 := { w.kb with index := some [], documents := ([] : List Document) }
    match addSeq embed kb1 sample_docs with
    | (some e, kb2) => (some e, { w with kb := kb2 })
    | (none, kb2) =>
      match saveOp kb2 w.storage with
      | (some e, st) => (some e, { kb := kb2, storage := st })
      | (none, st) => (none, { kb := kb2, storage := st })

/-- `KnowledgeBase._ensure_initialized`: run `_load_or_create_index` once,
then set `self._initialized = True` (the flag is not set if loading
raised). -/
def ensure_initialized (embed : Embedder) (w : World) : Option Err × World :=
  if w.kb.initialized then (none, w)
  else
    match load_or_create_index embed w with
    | (some e, w') => (some e, w')
    | (none, w') => (none, { w' with kb := { w'.kb with initialized := true } })

/-- Squared Euclidean (L2) distance, the metric of `IndexFlatL2`. -/
def l2sq (q v : Vec) : ℚ :=
  (List.zipWith (fun a b => (a - b) * (a - b)) q v).sum

/-- Result order of the index query: strictly nearer first, ties by lower
insertion position. -/
def rank (a b : ℕ × ℚ) : Prop :=
  a.2 < b.2 ∨ (a.2 = b.2 ∧ a.1 ≤ b.1)

instance rank.decRel : DecidableRel rank := fun a b =>
  decidable_of_iff (a.2 < b.2 ∨ (a.2 = b.2 ∧ a.1 ≤ b.1)) Iff.rfl

instance rank.isTotal : IsTotal (ℕ × ℚ) rank where
  total a b := by
    rcases lt_trichotomy a.2 b.2 with h | h | h
    · exact Or.inl (Or.inl h)
    · rcases Nat.le_total a.1 b.1 with hn | hn
      · exact Or.inl (Or.inr ⟨h, hn⟩)
      · exact Or.inr (Or.inr ⟨h.symm, hn⟩)
    · exact Or.inr (Or.inl h)

instance rank.isTrans : IsTrans (ℕ × ℚ) rank where
  trans a b c hab hbc := by
    rcases hab with hab | ⟨hab, hab'⟩
    · rcases hbc with hbc | ⟨hbc, _⟩
      · exact Or.inl (lt_trans hab hbc)
      · exact Or.inl (hbc ▸ hab)
    · rcases hbc with hbc | ⟨hbc, hbc'⟩
      · exact Or.inl (hab ▸ hbc)
      · exact Or.inr ⟨hab.trans hbc, le_trans hab' hbc'⟩

/-- Modelled from the spec: the nearest-neighbor query of the similarity
index (`faiss.IndexFlatL2.search` is library code).  Per spec §4.1 it
returns the `k` nearest stored vectors by ascending L2 squared distance as
`(position, distance)` pairs, ties broken stably by insertion order, and at
most `count()` results. -/
def query (xs : List Vec) (q : Vec) (k : ℕ) : List (ℕ × ℚ) :=
  (List.insertionSort rank (xs.enum.map (fun p => (p.1, l2sq q p.2)))).take k

/-- The result-assembly loop of `KnowledgeBase.search`: for each
`(position, distance)` pair, keep `documents[position]` with the distance
attached only when the position is in range. -/
def assemble (docs : List Document) (pairs : List (ℕ × ℚ)) :
    List (Document × ℚ) :=
  pairs.filterMap (fun p =>
    if h : p.1 < docs.length then some (docs[p.1], p.2) else none)

/-- `KnowledgeBase.search(query, k)`: ensure initialized; empty index means
an empty result before any embedding call; embed the query (errors
propagate); clamp `k` to `ntotal`; query the index; assemble the documents
defensively. -/
def search (embed : Embedder) (w : World) (q : String) (k : ℕ) :
    Except Err (List (Document × ℚ)) × World :=
  match ensure_initialized embed w with
  | (some e, w') => (Except.error e, w')
  | (none, w') =>
    match w'.kb.index with
    | none => (Except.error Err.attributeError, w')
    | some xs =>
      if xs.length = 0 then (Except.ok [], w')
      else
        match embed q with
        | Except.error e => (Except.error e, w')
        | Except.ok qv =>
          (Except.ok (assemble w'.kb.documents (query xs qv (min k xs.length))),
            w')

/-- The stats record of the `/api/knowledge-base/stats` route. -/
structure Stats where
  total_documents : ℕ
  index_size : ℕ
  dimension : ℕ
deriving DecidableEq, Repr

/-- The `knowledge_base_stats` route handler in `main.py`: it reads
`len(kb.documents)`, `kb.index.ntotal if kb.index else 0` and `kb.dimension`
directly off the instance and performs no state change at all. -/
def knowledge_base_stats (w : World) : Stats × World :=
  ({ total_documents := w.kb.documents.length, index_size := indexCount w.kb,
     dimension := w.kb.dimension }, w)

/-- A concrete embedding oracle: the text's length as a one-coordinate
vector. -/
def embedLen : Embedder := fun s => Except.ok [(s.length : ℚ)]

/-- An empty, already-initialized knowledge base of dimension 1 for concrete
runs. -/
def kbDim1 : KBState :=
  { index := some [], documents := [], dimension := 1, initialized := true }

/-- A concrete always-failing embedding oracle. -/
def embedFail : Embedder := fun _ => Except.error (Err.provider "boom")

/-- A constant embedding oracle returning the one-coordinate vector `[1]`. -/
def embedConst : Embedder := fun _ => Except.ok [1]

/-- The end-to-end test document of spec §8. -/
def docFees : Document :=
  { title := "Fees", content := "No hidden fees.",
    full_text := "Fees\nNo hidden fees." }

/-- A one-document, one-vector knowledge base of dimension 1. -/
def kbOne : KBState :=
  { index := some [[2]], documents := [docFees], dimension := 1,
    initialized := true }

/-- Well-formed but mismatched persisted artifacts: two vectors, one
document. -/
def mismatchedArtifacts : Artifacts :=
  saveArtifacts 1 [[1], [2]] [docFees]

/-- A fresh process whose durable storage holds the mismatched pair. -/
def mismatchedWorld : World :=
  { kb := initialKB, storage := some mismatchedArtifacts }

/-- Consistent persisted artifacts: one vector paired with one document. -/
def seededArtifacts : Artifacts :=
  saveArtifacts 1 [[2]] [docFees]

/-- A fresh process with consistent persisted artifacts. -/
def uninitWorld : World :=
  { kb := initialKB, storage := some seededArtifacts }

/-- An already-initialized process. -/
def readyWorld : World :=
  { kb := kbDim1, storage := none }

/-- A corrupted in-memory state: two vectors but a single document. -/
def corruptKB : KBState :=
  { index := some [[0], [3]], documents := [docFees], dimension := 1,
    initialized := true }

def corruptWorld : World :=
  { kb := corruptKB, storage := none }

/-- A consistent three-document knowledge base (for the k-clamping test of
spec §8). -/
def kbThreeWorld : World :=
  { kb := { index := some [[5], [6], [7]],
            documents := [docFees, docFees, docFees], dimension := 1,
            initialized := true },
    storage := none }

/-- The characters `calculate` allows: `set('0123456789+-*/().%** ')`
(the repeated asterisk adds nothing to the set). -/
def allowed_chars : List Char := "0123456789+-*/().%** ".toList

/-- The fixed invalid-characters message of `calculate`. -/
def invalidCharsMsg : String :=
  "Error: Expression contains invalid characters. Only numbers and operators (+, -, *, /, **, %, parentheses) are allowed."

/-- The Python `eval` call as an oracle: its first argument is the set of
names in scope (globals/builtins and locals flattened), and it either
returns a numeric value or raises, with the exception text. -/
abbrev PyEval := List String → String → Except String ℚ

/-- `calculate(expression)`: `expression.replace(' ', '')` removes every
space (Python strings are modelled as their character lists); any remaining
character outside the allowed set short-circuits to the fixed error message
before `eval` is reached; otherwise
`eval(expression, {"__builtins__": {}}, {})` runs with no names in scope,
its result is rendered as `Result: ...`, and any exception it raises is
caught and rendered as `Error in calculation: ...`. -/
def calculate (ev : PyEval) (expression : String) : String :=
  let stripped := expression.toList.filter (fun c => c ≠ ' ')
  if stripped.all (fun c => allowed_chars.contains c) then
    match ev [] expression with
    | Except.ok r => "Result: " ++ toString r
    | Except.error e => "Error in calculation: " ++ e
  else invalidCharsMsg

/-- The report f-string of `calculate_compound_interest` (after `.strip()`);
the decimal rendering of each float (`:,.2f` and `str`) is the oracle
`fmt`, which no claim inspects. -/
def compoundReport (fmt : ℚ → String)
    (principal rate time nq amount interest : ℚ) : String :=
  "Compound Interest Calculation:" ++
    ("\n- Principal Amount: $" ++ fmt principal ++
     "\n- Annual Interest Rate: " ++ fmt (rate * 100) ++ "%" ++
     "\n- Time Period: " ++ fmt time ++ " years" ++
     "\n- Compounding Frequency: " ++ fmt nq ++ " times per year" ++
     "\n\nFinal Amount: $" ++ fmt amount ++
     "\nInterest Earned: $" ++ fmt interest ++
     "\nTotal Return: " ++ fmt (interest / principal * 100) ++ "%")

/-- `calculate_compound_interest(principal, rate, time, compounds_per_year)`:
`rate /= 100`; with `compounds_per_year == 0` the expression
`rate / compounds_per_year` raises ZeroDivisionError; otherwise
`amount = principal * (1 + rate/n) ** (n*time)` (the float power is the
oracle `fpow`) and the report is formatted — during which
`interest_earned / principal * 100` raises ZeroDivisionError when
`principal == 0`.  Every raised exception is caught and rendered as
`Error calculating compound interest: ...`.  Note: the function validates
nothing — there is no sign check on any input. -/
def calculate_compound_interest (fpow : ℚ → ℚ → ℚ) (fmt : ℚ → String)
    (principal rate0 time : ℚ) (compounds_per_year : ℤ) : String :=
  let rate := rate0 / 100
  if compounds_per_year = 0 then
    "Error calculating compound interest: float division by zero"
  else
    let nq : ℚ := (compounds_per_year : ℚ)
    let amount := principal * fpow (1 + rate / nq) (nq * time)
    let interest_earned := amount - principal
    if principal = 0 then
      "Error calculating compound interest: float division by zero"
    else compoundReport fmt principal rate time nq amount interest_earned

/-- The report f-string of `analyze_investment_returns` (after `.strip()`). -/
def analysisReport (fmt : ℚ → String)
    (initial final years total_return total_return_pct cagr : ℚ) : String :=
  "Investment Return Analysis:" ++
    ("\n- Initial Investment: $" ++ fmt initial ++
     "\n- Final Value: $" ++ fmt final ++
     "\n- Time Period: " ++ fmt years ++ " years" ++
     "\n\nTotal Return: $" ++ fmt total_return ++ " (" ++
       fmt total_return_pct ++ "%)" ++
     "\nCompound Annual Growth Rate (CAGR): " ++ fmt cagr ++ "%" ++
     "\nAverage Annual Return: " ++ fmt (total_return_pct / years) ++
       "% per year")

/-- `analyze_investment_returns(initial, final, years)`: after the float
conversions, a non-positive `initial` or `years` returns the fixed error
string before anything else; otherwise the metrics (CAGR uses the float
power oracle) and the report. -/
def analyze_investment_returns (fpow : ℚ → ℚ → ℚ) (fmt : ℚ → String)
    (initial final years : ℚ) : String :=
  if initial ≤ 0 ∨ years ≤ 0 then
    "Error: Initial investment and years must be positive numbers."
  else
    let total_return := final - initial
    let total_return_pct := total_return / initial * 100
    let cagr := (fpow (final / initial) (1 / years) - 1) * 100
    analysisReport fmt initial final years total_return total_return_pct cagr

/-- A concrete power oracle for witnesses: exact power at integral
exponents (every concrete run below uses an integral exponent). -/
def powInt (x y : ℚ) : ℚ := x ^ y.num

/-- A concrete formatting oracle for witnesses: renders every number as the
empty string, making the report a string literal. -/
def fmtE : ℚ → String := fun _ => ""

/-- A concrete evaluator oracle that always raises. -/
def evBoom : PyEval := fun _ _ => Except.error "boom"

theorem add_document_ok (embed : Embedder) (kb kb' : KBState)
    (t c : String) (h : add_document embed kb t c = (none, kb')) :
    ∃ xs v, kb.index = some xs ∧ embed (t ++ "\n" ++ c) = Except.ok v ∧
      v.length = kb.dimension ∧ kb'.index = some (xs ++ [v]) ∧
      kb'.documents = kb.documents ++
        [{ title := t, content := c, full_text := t ++ "\n" ++ c }] := by
  cases hidx : kb.index with
  | none => simp only [add_document, hidx] at h; simp at h
  | some xs =>
    cases hemb : embed (t ++ "\n" ++ c) with
    | error e => simp only [add_document, hidx, hemb] at h; simp at h
    | ok v =>
      simp only [add_document, hidx, hemb] at h
      split at h
      next hlen =>
        injection h with h1 h2
        subst h2
        exact ⟨xs, v, rfl, rfl, hlen, rfl, rfl⟩
      next hlen => simp at h

theorem paired_append (embed : Embedder) (xs : List Vec)
    (docs : List Document) (v : Vec) (d : Document)
    (hlen : xs.length = docs.length)
    (hcorr : ∀ i : ℕ, ∀ hd : i < docs.length, ∀ hx : i < xs.length,
      embed docs[i].full_text = Except.ok xs[i])
    (hnew : embed d.full_text = Except.ok v) :
    ∀ i : ℕ, ∀ hd : i < (docs ++ [d]).length, ∀ hx : i < (xs ++ [v]).length,
      embed (docs ++ [d])[i].full_text = Except.ok (xs ++ [v])[i] := by
  intro i hd hx
  by_cases hi : i < docs.length
  · rw [List.getElem_append_left hi,
      List.getElem_append_left (show i < xs.length by omega)]
    exact hcorr i hi (by omega)
  · have hid : i = docs.length := by
      simp only [List.length_append, List.length_cons, List.length_nil] at hd
      omega
    have hix : i = xs.length := by omega
    rw [List.getElem_concat_length docs d i hid,
      List.getElem_concat_length xs v i hix]
    exact hnew

theorem paired_step (embed : Embedder) (kb kb' : KBState) (t c : String)
    (hp : Paired embed kb) (h : add_document embed kb t c = (none, kb')) :
    Paired embed kb' := by
  obtain ⟨xs0, hidx, hlen, hcorr⟩ := hp
  obtain ⟨xs, v, hidx', hemb, hvlen, hkidx, hkdocs⟩ :=
    add_document_ok embed kb kb' t c h
  rw [hidx] at hidx'
  injection hidx' with hxs
  subst hxs
  refine ⟨xs0 ++ [v], hkidx, ?_, ?_⟩
  · rw [hkdocs]; simp [hlen]
  · rw [hkdocs]
    exact paired_append embed xs0 kb.documents v _ hlen hcorr hemb

theorem addSeq_paired (embed : Embedder) (kb : KBState)
    (l : List (String × String)) (hp : Paired embed kb)
    (hok : (addSeq embed kb l).1 = none) :
    Paired embed (addSeq embed kb l).2 := by
  induction l generalizing kb with
  | nil => simpa [addSeq] using hp
  | cons p rest ih =>
    obtain ⟨t, c⟩ := p
    rw [addSeq] at hok ⊢
    cases hstep : add_document embed kb t c with
    | mk oe kb2 =>
      rw [hstep] at hok
      cases oe with
      | none => exact ih kb2 (paired_step embed kb kb2 t c hp hstep) hok
      | some e => simp at hok

theorem addSeq_prefix_ok (embed : Embedder) (kb : KBState)
    (pre suf : List (String × String))
    (hok : (addSeq embed kb (pre ++ suf)).1 = none) :
    (addSeq embed kb pre).1 = none := by
  induction pre generalizing kb with
  | nil => rfl
  | cons p rest ih =>
    obtain ⟨t, c⟩ := p
    rw [List.cons_append] at hok
    rw [addSeq] at hok ⊢
    cases hstep : add_document embed kb t c with
    | mk oe kb2 =>
      rw [hstep] at hok
      cases oe with
      | none => exact ih kb2 hok
      | some e => exact hok

/-- Claim C1: for every sequence of `add_document` calls that all succeed,
after each call (each prefix of the sequence) the number of vectors in the
similarity index equals the number of records in the document store, and the
record at position `i` is the document whose embedding was inserted as
vector `i`. -/
theorem c1_pairing_invariant (embed : Embedder) (kb : KBState)
    (l pre suf : List (String × String)) (hsplit : l = pre ++ suf)
    (hp : Paired embed kb) (hok : (addSeq embed kb l).1 = none) :
    Paired embed (addSeq embed kb pre).2 ∧
      indexCount (addSeq embed kb pre).2 =
        (addSeq embed kb pre).2.documents.length := by
  have hpre : (addSeq embed kb pre).1 = none :=
    addSeq_prefix_ok embed kb pre suf (hsplit ▸ hok)
  have hpaired := addSeq_paired embed kb pre hp hpre
  refine ⟨hpaired, ?_⟩
  obtain ⟨xs, hidx, hlen, -⟩ := hpaired
  simp [indexCount, hidx, hlen]

theorem paired_kbDim1 : Paired embedLen kbDim1 :=
  ⟨[], rfl, rfl, fun i hd _ => absurd hd (by simp [kbDim1])⟩

/-- Witness for C1: a concrete two-call run, checked after its first call. -/
theorem c1_pairing_invariant_witness :
    Paired embedLen (addSeq embedLen kbDim1 [("a", "b")]).2 ∧
      indexCount (addSeq embedLen kbDim1 [("a", "b")]).2 =
        (addSeq embedLen kbDim1 [("a", "b")]).2.documents.length :=
  c1_pairing_invariant embedLen kbDim1
    [("a", "b"), ("c", "d")] [("a", "b")] [("c", "d")] rfl
    paired_kbDim1 (by decide)

/-- Claim C2: if the embedding call inside `add_document` fails, the error
propagates to the caller and the returned state is exactly the input state —
neither the index nor the document store is modified. -/
theorem c2_atomic_on_embed_failure (embed : Embedder) (kb : KBState)
    (xs : List Vec) (t c : String) (e : Err) (hidx : kb.index = some xs)
    (hfail : embed (t ++ "\n" ++ c) = Except.error e) :
    add_document embed kb t c = (some e, kb) := by
  unfold add_document
  rw [hidx, hfail]

/-- Witness for C2: a failing embedding call leaves the concrete state
untouched and surfaces the provider error. -/
theorem c2_atomic_on_embed_failure_witness :
    add_document embedFail kbDim1 "t" "c" =
      (some (Err.provider "boom"), kbDim1) :=
  c2_atomic_on_embed_failure embedFail kbDim1 [] "t" "c"
    (Err.provider "boom") rfl rfl


theorem flatten_length_eq (dim : ℕ) (xs : List Vec)
    (hv : ∀ v ∈ xs, v.length = dim) : xs.flatten.length = dim * xs.length := by
  induction xs with
  | nil => simp
  | cons v rest ih =>
    simp only [List.flatten_cons, List.length_append, List.length_cons]
    rw [hv v (by simp), ih (fun u hu => hv u (by simp [hu]))]
    ring

theorem chunkVecs_flatten (dim : ℕ) (xs : List Vec)
    (hv : ∀ v ∈ xs, v.length = dim) :
    chunkVecs dim xs.length xs.flatten = xs := by
  induction xs with
  | nil => rfl
  | cons v rest ih =>
    simp only [List.length_cons, List.flatten_cons, chunkVecs]
    rw [List.take_left' (hv v (by simp)), List.drop_left' (hv v (by simp))]
    rw [ih (fun u hu => hv u (by simp [hu]))]

theorem read_write_index (dim : ℕ) (xs : List Vec) (hdim : 0 < dim)
    (hv : ∀ v ∈ xs, v.length = dim) :
    read_index (write_index dim xs) = some xs := by
  unfold read_index write_index
  split
  next h => exact congrArg some (chunkVecs_flatten dim xs hv)
  next h => exact absurd ⟨hdim, flatten_length_eq dim xs hv⟩ h

theorem jsonToDocList_map (docs : List Document) :
    jsonToDocList (docs.map docToJson) = some docs := by
  induction docs with
  | nil => rfl
  | cons d rest ih =>
    obtain ⟨t, c, f⟩ := d
    simp only [List.map_cons, jsonToDocList, jsonToDoc, docToJson, ih]

theorem jsonToDocs_docsToJson (docs : List Document) :
    jsonToDocs (docsToJson docs) = some docs := by
  unfold jsonToDocs docsToJson
  exact jsonToDocList_map docs

/-- Claim C8: save followed by a fresh load of the two persisted artifacts
reconstructs the similarity index and document store exactly — same vector
values, same document records, same order. -/
theorem c8_round_trip_persistence (kb : KBState) (storage : Option Artifacts)
    (xs : List Vec) (hidx : kb.index = some xs) (hdim : 0 < kb.dimension)
    (hv : ∀ v ∈ xs, v.length = kb.dimension) :
    ∃ a, saveOp kb storage = (none, some a) ∧
      loadArtifacts a = some (xs, kb.documents) := by
  refine ⟨saveArtifacts kb.dimension xs kb.documents, ?_, ?_⟩
  · unfold saveOp
    rw [hidx]
  · simp only [loadArtifacts, saveArtifacts,
      read_write_index kb.dimension xs hdim hv, jsonToDocs_docsToJson]

/-- Witness for C8: a concrete one-vector, one-document state round-trips
through the persisted artifacts. -/
theorem c8_round_trip_persistence_witness :
    ∃ a, saveOp kbOne none = (none, some a) ∧
      loadArtifacts a = some ([[2]], [docFees]) :=
  c8_round_trip_persistence kbOne none [[2]] rfl (by decide)
    (fun v hv => by rw [List.mem_singleton] at hv; subst hv; rfl)

theorem ensure_init_load (embed : Embedder) (w : World) (a : Artifacts)
    (xs : List Vec) (ds : List Document) (hstore : w.storage = some a)
    (hinit : w.kb.initialized = false) (hread : read_index a.blob = some xs)
    (hdocs : jsonToDocs a.docsFile = some ds) :
    ensure_initialized embed w =
      (none,
        { w with
            kb :=
              { w.kb with
                  index := some xs, documents := ds, initialized := true } })
    := by
  simp only [ensure_initialized, hinit, load_or_create_index, hstore, hread,
    hdocs, Bool.false_eq_true, if_false]

/-- Claim C3 (amended): when both persisted artifacts exist and are
well-formed, initialization loads them and the manager becomes Ready with
exactly the loaded contents, with no comparison of the two counts — a
mismatched pair is accepted silently; the code defines no CorruptionError. -/
theorem c3_load_skips_validation (embed : Embedder) (w : World)
    (a : Artifacts) (xs : List Vec) (ds : List Document)
    (hstore : w.storage = some a) (hinit : w.kb.initialized = false)
    (hread : read_index a.blob = some xs)
    (hdocs : jsonToDocs a.docsFile = some ds) :
    (ensure_initialized embed w).1 = none ∧
      (ensure_initialized embed w).2.kb.initialized = true ∧
      (ensure_initialized embed w).2.kb.index = some xs ∧
      (ensure_initialized embed w).2.kb.documents = ds := by
  rw [ensure_init_load embed w a xs ds hstore hinit hread hdocs]
  exact ⟨rfl, rfl, rfl, rfl⟩

/-- Counterexample to claim C3 as stated: with two persisted vectors and one
persisted document, initialization succeeds (no error raised), the manager
becomes Ready, and the mismatched counts (2 vectors, 1 document) are kept. -/
theorem c3_counterexample :
    (ensure_initialized embedFail mismatchedWorld).1 = none ∧
      (ensure_initialized embedFail mismatchedWorld).2.kb.initialized = true ∧
      indexCount (ensure_initialized embedFail mismatchedWorld).2.kb = 2 ∧
      (ensure_initialized embedFail mismatchedWorld).2.kb.documents.length
        = 1 :=
  ⟨rfl, rfl, rfl, rfl⟩

/-- Witness for C3 (amended): the mismatched artifacts load without error. -/
theorem c3_load_skips_validation_witness :
    (ensure_initialized embedFail mismatchedWorld).1 = none ∧
      (ensure_initialized embedFail mismatchedWorld).2.kb.initialized
        = true ∧
      (ensure_initialized embedFail mismatchedWorld).2.kb.index
        = some [[1], [2]] ∧
      (ensure_initialized embedFail mismatchedWorld).2.kb.documents
        = [docFees] :=
  c3_load_skips_validation embedFail mismatchedWorld mismatchedArtifacts
    [[1], [2]] [docFees] rfl rfl rfl rfl

theorem ensure_init_ready (embed : Embedder) (w : World)
    (hinit : w.kb.initialized = true) :
    ensure_initialized embed w = (none, w) := by
  unfold ensure_initialized
  rw [hinit]
  rfl

theorem search_world (embed : Embedder) (w w1 : World) (q : String) (k : ℕ)
    (h : ensure_initialized embed w = (none, w1)) :
    (search embed w q k).2 = w1 := by
  unfold search
  rw [h]
  show (match w1.kb.index with
    | none => (Except.error Err.attributeError, w1)
    | some xs =>
      if xs.length = 0 then (Except.ok [], w1)
      else
        match embed q with
        | Except.error e => (Except.error e, w1)
        | Except.ok qv =>
          (Except.ok (assemble w1.kb.documents (query xs qv (min k xs.length))),
            w1)).2 = w1
  cases w1.kb.index with
  | none => rfl
  | some xs =>
    by_cases hxs : xs.length = 0
    · simp only [if_pos hxs]
    · simp only [if_neg hxs]
      cases embed q with
      | error e => rfl
      | ok qv => rfl

/-- Claim C4 (amended): initialization is flag-guarded and runs at most once
(every operation on a Ready manager leaves it untouched); `search` on an
uninitialized manager with persisted artifacts loads them — becoming Ready
with exactly the persisted documents and without writing storage, so the
seed path never re-runs and seed documents are not duplicated.  The stats
route and `add_document`, however, do not initialize (see the
counterexample). -/
theorem c4_initialization_policy (embed : Embedder) (w : World) (q : String)
    (k : ℕ) (a : Artifacts) (xs : List Vec) (ds : List Document)
    (hstore : w.storage = some a) (hread : read_index a.blob = some xs)
    (hdocs : jsonToDocs a.docsFile = some ds) :
    (∀ w2 : World, w2.kb.initialized = true →
      ensure_initialized embed w2 = (none, w2)) ∧
    (w.kb.initialized = false →
      (search embed w q k).2.kb.initialized = true ∧
      (search embed w q k).2.kb.documents = ds ∧
      (search embed w q k).2.storage = w.storage) := by
  refine ⟨fun w2 h2 => ensure_init_ready embed w2 h2, fun hinit => ?_⟩
  have h := ensure_init_load embed w a xs ds hstore hinit hread hdocs
  rw [search_world embed w _ q k h]
  exact ⟨rfl, rfl, rfl⟩

/-- Counterexample to claim C4 as stated: the stats route on an
uninitialized manager reports zero counts and leaves the manager
uninitialized (not Ready), and `add_document` on an uninitialized manager
raises an AttributeError instead of initializing. -/
theorem c4_counterexample :
    (knowledge_base_stats uninitWorld).2.kb.initialized = false ∧
      (knowledge_base_stats uninitWorld).1 =
        { total_documents := 0, index_size := 0, dimension := 1536 } ∧
      add_document embedLen initialKB "t" "c" =
        (some Err.attributeError, initialKB) :=
  ⟨rfl, rfl, rfl⟩

/-- Witness for C4 (amended): idempotence on a Ready world, and a concrete
search-triggered load of consistent artifacts. -/
theorem c4_initialization_policy_witness :
    ensure_initialized embedLen readyWorld = (none, readyWorld) ∧
      ((search embedLen uninitWorld "q" 3).2.kb.initialized = true ∧
        (search embedLen uninitWorld "q" 3).2.kb.documents = [docFees] ∧
        (search embedLen uninitWorld "q" 3).2.storage
          = uninitWorld.storage) := by
  obtain ⟨h1, h2⟩ := c4_initialization_policy embedLen uninitWorld "q" 3
    seededArtifacts [[2]] [docFees] rfl rfl rfl
  exact ⟨h1 readyWorld rfl, h2 rfl⟩

theorem query_sorted (xs : List Vec) (q : Vec) (k : ℕ) :
    List.Sorted rank (query xs q k) := by
  unfold query
  exact List.Pairwise.sublist (List.take_sublist k _)
    (List.sorted_insertionSort rank _)

theorem query_map_fst_nodup (xs : List Vec) (q : Vec) (k : ℕ) :
    ((query xs q k).map Prod.fst).Nodup := by
  unfold query
  rw [List.map_take]
  refine List.Nodup.sublist (List.take_sublist k _) ?_
  have hperm : List.Perm
      ((List.insertionSort rank
        (xs.enum.map (fun p => (p.1, l2sq q p.2)))).map Prod.fst)
      ((xs.enum.map (fun p => (p.1, l2sq q p.2))).map Prod.fst) :=
    (List.perm_insertionSort rank _).map Prod.fst
  refine hperm.symm.nodup ?_
  rw [List.map_map]
  exact List.nodup_enum_map_fst xs

theorem query_mem (xs : List Vec) (q : Vec) (k : ℕ) (p : ℕ × ℚ)
    (hp : p ∈ query xs q k) :
    ∃ h : p.1 < xs.length, p.2 = l2sq q xs[p.1] := by
  unfold query at hp
  have hp2 := List.take_subset k _ hp
  rw [List.mem_insertionSort, List.mem_map] at hp2
  obtain ⟨pe, hpe, hfe⟩ := hp2
  rw [List.mem_enum_iff_getElem?] at hpe
  obtain ⟨hlt, hget⟩ := List.getElem?_eq_some_iff.mp hpe
  subst hfe
  exact ⟨hlt, congrArg (l2sq q) hget.symm⟩

theorem query_length (xs : List Vec) (q : Vec) (k : ℕ) :
    (query xs q k).length = min k xs.length := by
  unfold query
  rw [List.length_take, List.Perm.length_eq (List.perm_insertionSort rank _)]
  simp

theorem assemble_cons (docs : List Document) (p : ℕ × ℚ)
    (rest : List (ℕ × ℚ)) :
    assemble docs (p :: rest) =
      if h : p.1 < docs.length then (docs[p.1], p.2) :: assemble docs rest
      else assemble docs rest := by
  by_cases hp : p.1 < docs.length <;>
    simp [assemble, List.filterMap_cons, hp]

theorem assemble_length_all (docs : List Document) (pairs : List (ℕ × ℚ))
    (h : ∀ p ∈ pairs, p.1 < docs.length) :
    (assemble docs pairs).length = pairs.length := by
  induction pairs with
  | nil => rfl
  | cons p rest ih =>
    have hp := h p (List.mem_cons_self p rest)
    rw [assemble_cons, dif_pos hp, List.length_cons, List.length_cons,
      ih (fun p2 h2 => h p2 (List.mem_cons_of_mem p h2))]

theorem assemble_length_filter (docs : List Document)
    (pairs : List (ℕ × ℚ)) :
    (assemble docs pairs).length =
      (pairs.filter (fun p => decide (p.1 < docs.length))).length := by
  induction pairs with
  | nil => rfl
  | cons p rest ih =>
    rw [assemble_cons, List.filter_cons]
    by_cases hp : p.1 < docs.length
    · rw [dif_pos hp, if_pos (by simpa using hp), List.length_cons,
        List.length_cons, ih]
    · rw [dif_neg hp, if_neg (by simpa using hp), ih]

theorem search_ready (embed : Embedder) (w : World) (q : String) (k : ℕ)
    (xs : List Vec) (hinit : w.kb.initialized = true)
    (hidx : w.kb.index = some xs) :
    search embed w q k =
      (if xs.length = 0 then (Except.ok [], w)
       else
         match embed q with
         | Except.error e => (Except.error e, w)
         | Except.ok qv =>
           (Except.ok (assemble w.kb.documents (query xs qv (min k xs.length))),
             w)) := by
  unfold search
  rw [ensure_init_ready embed w hinit]
  show (match w.kb.index with
    | none => (Except.error Err.attributeError, w)
    | some xs =>
      if xs.length = 0 then (Except.ok [], w)
      else
        match embed q with
        | Except.error e => (Except.error e, w)
        | Except.ok qv =>
          (Except.ok (assemble w.kb.documents (query xs qv (min k xs.length))),
            w)) = _
  rw [hidx]

/-- Claim C5: the nearest-neighbor query returns `(position, distance)`
pairs sorted by ascending L2 squared distance, ties broken in favour of the
lower insertion position (the positions are pairwise distinct, so `rank`
sortedness gives the tie order), and every returned distance is the true L2
squared distance of the stored vector at that position. -/
theorem c5_query_ordering (xs : List Vec) (q : Vec) (k : ℕ) :
    List.Sorted rank (query xs q k) ∧
      ((query xs q k).map Prod.fst).Nodup ∧
      ∀ p ∈ query xs q k, ∃ h : p.1 < xs.length, p.2 = l2sq q xs[p.1] :=
  ⟨query_sorted xs q k, query_map_fst_nodup xs q k,
    fun p hp => query_mem xs q k p hp⟩

/-- Witness for C5: the spec §8 ordering example — three stored vectors at
distances 9, 1, 4 from the query come back in position order `[1, 2, 0]`. -/
theorem c5_query_ordering_witness :
    List.Sorted rank (query [[3], [1], [2]] [0] 3) ∧
      (query [[3], [1], [2]] [0] 3).map Prod.fst = [1, 2, 0] :=
  ⟨(c5_query_ordering [[3], [1], [2]] [0] 3).1, by
    norm_num [query, l2sq, List.insertionSort, List.orderedInsert, List.enum,
      List.enumFrom, rank]⟩

/-- Claim C6: on an initialized knowledge base whose pairing invariant
holds, `search` returns exactly `min k count(index)` results (for an empty
index that is the empty list, returned without error and before any
embedding call). -/
theorem c6_search_result_count (embed : Embedder) (w : World) (q : String)
    (k : ℕ) (xs : List Vec) (qv : Vec) (hinit : w.kb.initialized = true)
    (hidx : w.kb.index = some xs)
    (hlen : xs.length = w.kb.documents.length)
    (hq : xs ≠ [] → embed q = Except.ok qv) :
    ∃ rs, search embed w q k = (Except.ok rs, w) ∧
      rs.length = min k xs.length := by
  rw [search_ready embed w q k xs hinit hidx]
  by_cases hxs : xs.length = 0
  · rw [if_pos hxs]
    exact ⟨[], rfl, by simp [hxs]⟩
  · rw [if_neg hxs, hq (fun h => hxs (by rw [h]; rfl))]
    refine ⟨assemble w.kb.documents (query xs qv (min k xs.length)), rfl, ?_⟩
    have hall : ∀ p ∈ query xs qv (min k xs.length),
        p.1 < w.kb.documents.length := by
      intro p hp
      obtain ⟨h1, -⟩ := query_mem xs qv _ p hp
      omega
    rw [assemble_length_all _ _ hall, query_length]
    omega

/-- Witness for C6: the k-clamping test of spec §8 — `search` with `k = 100`
on a three-document base returns exactly 3 results. -/
theorem c6_search_result_count_witness :
    ∃ rs, search embedConst kbThreeWorld "q" 100
      = (Except.ok rs, kbThreeWorld) ∧ rs.length = 3 := by
  obtain ⟨rs, h1, h2⟩ := c6_search_result_count embedConst kbThreeWorld "q"
    100 [[5], [6], [7]] [1] rfl rfl rfl (fun _ => rfl)
  exact ⟨rs, h1, by rw [h2]; rfl⟩

/-- Claim C7: during result assembly, a queried position that is not a valid
document-store index is silently dropped and the rest is still returned —
the search succeeds with exactly the in-range results instead of failing
with an out-of-range error. -/
theorem c7_out_of_range_skipped (embed : Embedder) (w : World) (q : String)
    (k : ℕ) (xs : List Vec) (qv : Vec) (hinit : w.kb.initialized = true)
    (hidx : w.kb.index = some xs) (hq : embed q = Except.ok qv) :
    ∃ rs, search embed w q k = (Except.ok rs, w) ∧
      rs.length = ((query xs qv (min k xs.length)).filter
        (fun p => decide (p.1 < w.kb.documents.length))).length := by
  rw [search_ready embed w q k xs hinit hidx]
  by_cases hxs : xs.length = 0
  · rw [if_pos hxs]
    refine ⟨[], rfl, ?_⟩
    have hnil : xs = [] := List.length_eq_zero.mp hxs
    subst hnil
    simp [query]
  · rw [if_neg hxs, hq]
    exact ⟨_, rfl, assemble_length_filter w.kb.documents _⟩

/-- Witness for C7: a corrupted state with two vectors but one document
still answers a search, returning the single in-range result. -/
theorem c7_out_of_range_skipped_witness :
    ∃ rs, search embedConst corruptWorld "q" 2
      = (Except.ok rs, corruptWorld) ∧ rs.length = 1 := by
  obtain ⟨rs, h1, h2⟩ := c7_out_of_range_skipped embedConst corruptWorld "q"
    2 [[0], [3]] [1] rfl rfl rfl
  exact ⟨rs, h1, by
    rw [h2]
    norm_num [query, l2sq, List.insertionSort, List.orderedInsert, List.enum,
      List.enumFrom, rank, corruptWorld, corruptKB, docFees]⟩

/-- Claim C9 (amended): `analyze_investment_returns` returns the fixed
descriptive error string for any non-positive `initial` or `years`;
`calculate_compound_interest` has no such guard — a zero principal is
reported only because the caught ZeroDivisionError from the report's
total-return division renders an error string, while a negative principal
(with a nonzero compounding count) produces the normal formatted report. -/
theorem c9_error_contract (fpow : ℚ → ℚ → ℚ) (fmt : ℚ → String)
    (initial final years principal rate time : ℚ) (n : ℤ)
    (hneg : initial ≤ 0 ∨ years ≤ 0) (hn : n ≠ 0) (hp : principal < 0) :
    analyze_investment_returns fpow fmt initial final years =
      "Error: Initial investment and years must be positive numbers." ∧
    calculate_compound_interest fpow fmt 0 rate time n =
      "Error calculating compound interest: float division by zero" ∧
    ∃ rest, calculate_compound_interest fpow fmt principal rate time n =
      "Compound Interest Calculation:" ++ rest := by
  refine ⟨?_, ?_, ?_⟩
  · simp only [analyze_investment_returns, if_pos hneg]
  · simp only [calculate_compound_interest, if_neg hn]
    simp
  · simp only [calculate_compound_interest, if_neg hn, if_neg hp.ne]
    exact ⟨_, rfl⟩

/-- Counterexample to claim C9 as stated: a negative principal
(`calculate_compound_interest(-1000, 5, 1, 12)`) yields the normal
formatted report, not an error string. -/
theorem c9_counterexample :
    calculate_compound_interest powInt fmtE (-1000) 5 1 12 =
      "Compound Interest Calculation:" ++
        ("\n- Principal Amount: $" ++ "" ++
         "\n- Annual Interest Rate: " ++ "" ++ "%" ++
         "\n- Time Period: " ++ "" ++ " years" ++
         "\n- Compounding Frequency: " ++ "" ++ " times per year" ++
         "\n\nFinal Amount: $" ++ "" ++
         "\nInterest Earned: $" ++ "" ++
         "\nTotal Return: " ++ "" ++ "%") := by
  simp only [calculate_compound_interest,
    if_neg (show ¬ (12 : ℤ) = 0 by norm_num),
    if_neg (show ¬ (-1000 : ℚ) = 0 by norm_num), compoundReport, fmtE]

/-- Witness for C9 (amended): the three behaviours at concrete inputs. -/
theorem c9_error_contract_witness :
    analyze_investment_returns powInt fmtE (-5) 10 2 =
      "Error: Initial investment and years must be positive numbers." ∧
    calculate_compound_interest powInt fmtE 0 5 1 12 =
      "Error calculating compound interest: float division by zero" ∧
    ∃ rest, calculate_compound_interest powInt fmtE (-7) 5 1 12 =
      "Compound Interest Calculation:" ++ rest :=
  c9_error_contract powInt fmtE (-5) 10 2 (-7) 5 1 12
    (Or.inl (by norm_num)) (by norm_num) (by norm_num)

/-- Claim C10: `calculate` always returns a string — an evaluator exception
becomes the `Error in calculation:` string; any character outside the
allowed set short-circuits to the fixed invalid-characters message without
consulting the evaluator at all; and the outcome depends on the evaluator
only through its behaviour on the empty name environment, which is what the
code passes to `eval`. -/
theorem c10_calculate_guarded (ev ev2 : PyEval) (expr : String) :
    ((∃ c ∈ expr.toList, allowed_chars.contains c = false) →
      ∀ ev3 : PyEval, calculate ev3 expr = invalidCharsMsg) ∧
    ((∀ c ∈ expr.toList, allowed_chars.contains c = true) →
      ∀ e, ev [] expr = Except.error e →
        calculate ev expr = "Error in calculation: " ++ e) ∧
    ((∀ s, ev [] s = ev2 [] s) → calculate ev expr = calculate ev2 expr) := by
  refine ⟨?_, ?_, ?_⟩
  · rintro ⟨c, hc, hcf⟩ ev3
    have hcsp : c ≠ ' ' := by
      intro h
      rw [h] at hcf
      exact absurd hcf (by decide)
    have hmem : c ∈ expr.toList.filter (fun c => c ≠ ' ') := by
      rw [List.mem_filter]
      exact ⟨hc, by simpa using hcsp⟩
    have hall : (expr.toList.filter (fun c => c ≠ ' ')).all
        (fun c => allowed_chars.contains c) = false :=
      List.all_eq_false.mpr ⟨c, hmem, by simpa using hcf⟩
    simp only [calculate, hall, Bool.false_eq_true, if_false]
  · intro hok e hev
    have hall : (expr.toList.filter (fun c => c ≠ ' ')).all
        (fun c => allowed_chars.contains c) = true :=
      List.all_eq_true.mpr
        (fun c hc => hok c (List.mem_filter.mp hc).1)
    simp only [calculate, hall, if_true, hev]
  · intro hagree
    by_cases hall : (expr.toList.filter (fun c => c ≠ ' ')).all
        (fun c => allowed_chars.contains c) = true
    · simp only [calculate, hall, if_true, hagree expr]
    · rw [Bool.not_eq_true] at hall
      simp only [calculate, hall, Bool.false_eq_true, if_false]

/-- Witness for C10: an invalid character is rejected regardless of the
evaluator, and an evaluator exception on a valid expression is rendered as
the calculation-error string. -/
theorem c10_calculate_guarded_witness :
    calculate evBoom "2+a" = invalidCharsMsg ∧
    calculate evBoom "2+2" = "Error in calculation: " ++ "boom" :=
  ⟨(c10_calculate_guarded evBoom evBoom "2+a").1
      ⟨'a', by decide, by decide⟩ evBoom,
    (c10_calculate_guarded evBoom evBoom "2+2").2.1 (by decide) "boom" rfl⟩

end FinanceKB
